import Mathlib

/-!
Verification development for the evmjit C API (include/evmjit.h, capi.c,
examples/capi.c).

The repository defines the boundary contract between an EVM execution engine
and a host application: value encodings (`evmjit_uint256`, `evmjit_hash256`,
`evmjit_hash160`, `union evmjit_variant`), the query/storage/call/log callback
channels, the execution result, and the instance lifecycle.  Bytes are
modelled as `Nat` below 256, 64-bit words as `Nat` below 2 ^ 64, and signed
64-bit quantities as `Int`.  Functions whose bodies are not part of the
repository (the engine itself is out of scope of the C API layer) are
modelled from the specification and say so in their doc comments.
-/

/-! ### Byte and word codec

`evmjit_hash256` is a 32-byte big-endian buffer; `evmjit_uint256` is four
host-endian 64-bit words with `words[0]` holding the 64 least significant
bits (include/evmjit.h, lines 25-50). -/

/-- Little-endian byte decomposition of a natural number: `k` bytes, least
significant first. -/
def natToLeBytes : Nat → Nat → List Nat
  | 0, _ => []
  | k + 1, w => w % 256 :: natToLeBytes k (w / 256)

/-- Value of a little-endian byte list (least significant byte first). -/
def leBytesToNat : List Nat → Nat
  | [] => 0
  | b :: bs => b + 256 * leBytesToNat bs

/-- Big-endian byte decomposition of a natural number: `k` bytes, most
significant first. -/
def natToBeBytes (k w : Nat) : List Nat :=
  (natToLeBytes k w).reverse

/-- Value of a big-endian byte list (most significant byte first). -/
def beBytesToNat (bs : List Nat) : Nat :=
  leBytesToNat bs.reverse

/-- Modelled from the spec: the conversion performed inside EVMJIT from a
big-endian `evmjit_hash256` buffer to the host-endian `evmjit_uint256`
four-word form (the conversion code itself is not in the repository; the
header only documents it).  `B` is the 32-byte big-endian buffer; the result
lists `words[0]`, `words[1]`, `words[2]`, `words[3]`, with `words[0]` the
value of the 8 least significant (last) bytes of `B`. -/
def hash256_to_uint256 (B : List Nat) : List Nat :=
  [ beBytesToNat (B.drop 24),
    beBytesToNat ((B.drop 16).take 8),
    beBytesToNat ((B.drop 8).take 8),
    beBytesToNat (B.take 8) ]

/-- Modelled from the spec: the inverse conversion, from the four host-endian
words `[words[0], words[1], words[2], words[3]]` back to the 32-byte
big-endian buffer. -/
def uint256_to_hash256 (ws : List Nat) : List Nat :=
  match ws with
  | [w0, w1, w2, w3] =>
      natToBeBytes 8 w3 ++ natToBeBytes 8 w2 ++ natToBeBytes 8 w1 ++
        natToBeBytes 8 w0
  | _ => []

/-- Byte image of an `evmjit_uint256` in the memory of a little-endian host:
each 64-bit word laid out least significant byte first, `words[0]` first. -/
def uint256_le_image (ws : List Nat) : List Nat :=
  match ws with
  | [w0, w1, w2, w3] =>
      natToLeBytes 8 w0 ++ natToLeBytes 8 w1 ++ natToLeBytes 8 w2 ++
        natToLeBytes 8 w3
  | _ => []

/-! ### Enumerations of the interface (include/evmjit.h) -/

/-- Query callback key enumeration, `enum evmjit_query_key` from
include/evmjit.h lines 95-109, in source order. -/
inductive evmjit_query_key where
  | query_address
  | query_caller
  | query_origin
  | query_gas_price
  | query_coinbase
  | query_difficulty
  | query_gas_limit
  | query_number
  | query_timestamp
  | query_code_by_address
  | query_balance
  | query_storage
deriving DecidableEq, Fintype

/-- Kinds of values a `union evmjit_variant` can carry: a host-endian 64-bit
integer, a host-endian 256-bit integer, a 160-bit address, or a memory
reference. -/
inductive variant_kind where
  | int64_kind
  | uint256_kind
  | address_kind
  | bytes_kind
deriving DecidableEq, Fintype

/-- Shape of the argument a query key expects in the variant argument of the
query callback:  either the argument is meaningless (the key ignores it), or
it carries an address, or a 256-bit storage key. -/
inductive query_arg_kind where
  | no_arg
  | address_arg
  | uint256_arg
deriving DecidableEq, Fintype

/-- Argument column of the query-key table documented on `evmjit_query_func`
(include/evmjit.h lines 152-168): only code-by-address and balance take an
address and only storage takes a 256-bit key; every other key ignores the
argument. -/
def query_arg : evmjit_query_key → query_arg_kind
  | .query_code_by_address => .address_arg
  | .query_balance => .address_arg
  | .query_storage => .uint256_arg
  | _ => .no_arg

/-- Result column of the query-key table documented on `evmjit_query_func`
(include/evmjit.h lines 152-168): which member of the returned variant is
valid for each key. -/
def query_result : evmjit_query_key → variant_kind
  | .query_address => .address_kind
  | .query_caller => .address_kind
  | .query_origin => .address_kind
  | .query_gas_price => .uint256_kind
  | .query_coinbase => .address_kind
  | .query_difficulty => .uint256_kind
  | .query_gas_limit => .int64_kind
  | .query_number => .int64_kind
  | .query_timestamp => .int64_kind
  | .query_code_by_address => .bytes_kind
  | .query_balance => .uint256_kind
  | .query_storage => .uint256_kind

/-- The twelve query keys of `enum evmjit_query_key`, in declaration order. -/
def all_query_keys : List evmjit_query_key :=
  [.query_address, .query_caller, .query_origin, .query_gas_price,
   .query_coinbase, .query_difficulty, .query_gas_limit, .query_number,
   .query_timestamp, .query_code_by_address, .query_balance, .query_storage]

/-- Return code enumeration, `enum evmjit_return_code` from include/evmjit.h
lines 64-69 (identical in capi.c lines 48-52). -/
inductive evmjit_return_code where
  | evmjit_return
  | evmjit_selfdestruct
  | evmjit_exception
deriving DecidableEq, Fintype

/-- Integer value assigned to each `enum evmjit_return_code` enumerator in
the source: `evmjit_return = 0`, `evmjit_selfdestruct = 1`,
`evmjit_exception = -1`. -/
def return_code_value : evmjit_return_code → Int
  | .evmjit_return => 0
  | .evmjit_selfdestruct => 1
  | .evmjit_exception => -1

/-- Call kind enumeration, `enum evmjit_call_kind` from include/evmjit.h
lines 180-186. -/
inductive evmjit_call_kind where
  | evmjit_call
  | evmjit_delegatecall
  | evmjit_callcode
  | evmjit_create
deriving DecidableEq, Fintype

/-! ### The variant union as memory (include/evmjit.h lines 116-139)

The union is untagged; writing one member and reading another reinterprets
the underlying bytes.  `VariantMem` models the 32-byte integer payload region
of `union evmjit_variant` at 64-bit word granularity: the `int64` member
overlays the first word, the `uint256` member overlays all four words. -/

/-- Word-level model of the 32-byte integer payload region of
`union evmjit_variant`. -/
structure VariantMem where
  words : List Nat
deriving DecidableEq

/-- Writing the 64-bit integer member of the variant union: assigns the first
word and leaves the remaining bytes of the union as they were. -/
def write_int64 (m : VariantMem) (v : Nat) : VariantMem :=
  ⟨v % 2 ^ 64 :: m.words.drop 1⟩

/-- Writing the `uint256` member of the variant union: assigns all four
words. -/
def write_uint256 (_m : VariantMem) (ws : List Nat) : VariantMem :=
  ⟨ws⟩

/-- Reading the `uint256` member of the variant union: the four words
`words[0] .. words[3]`. -/
def read_uint256 (m : VariantMem) : List Nat :=
  m.words.take 4

/-- Model of `struct evmjit_env`, the opaque execution environment handle
owned by the host; its content is irrelevant to every theorem here. -/
inductive evmjit_env where
  | host_env
deriving DecidableEq

/-- The `query` callback defined in src/examples/capi.c.  `balance` models the
external `balance` function the example declares but does not define (the C
code passes it `env` and `arg.address`; the model passes the whole argument
variant for the address member).  `result_init` models the indeterminate
contents of the uninitialized local `union evmjit_variant result`.  The
example assigns to a member named `uint64`, which `union evmjit_variant` does
not declare; it is modelled here as the `int64` member the example evidently
intends. -/
def example_query (balance : evmjit_env → VariantMem → List Nat)
    (result_init : VariantMem) (env : evmjit_env) (key : evmjit_query_key)
    (arg : VariantMem) : VariantMem :=
  match key with
  | .query_gas_limit => write_int64 result_init 314
  | .query_balance => write_uint256 result_init (balance env arg)
  | _ => write_int64 result_init 0

/-! ### Layout of `union evmjit_variant` under the C object model -/

/-- Size in bytes of `struct evmjit_hash160` (`char bytes[20]`,
include/evmjit.h lines 36-40). -/
def sizeof_hash160 : Nat := 20

/-- Size in bytes of the `address_padding` field of `union evmjit_variant`
(`char address_padding[12]`, include/evmjit.h lines 127-134). -/
def address_padding_size : Nat := 12

/-- Round `n` up to the next multiple of `align`. -/
def round_up_to (n align : Nat) : Nat :=
  (n + align - 1) / align * align

/-- The four members of `union evmjit_variant` (include/evmjit.h lines
116-139): `int64`, `uint256`, the anonymous padded-address struct, and
`bytes`. -/
inductive variant_member where
  | int64_member
  | uint256_member
  | padded_address_member
  | bytes_view_member
deriving DecidableEq, Fintype

/-- Size in bytes of each member of `union evmjit_variant`, parameterized by
the platform pointer size: `int64_t` is 8 bytes, `struct evmjit_uint256` is
four 8-byte words, the anonymous struct is the 12 padding bytes plus the
20-byte address, and `struct evmjit_bytes_view` is a pointer plus a
`size_t` (pointer-sized). -/
def member_size (ptr_size : Nat) : variant_member → Nat
  | .int64_member => 8
  | .uint256_member => 4 * 8
  | .padded_address_member => address_padding_size + sizeof_hash160
  | .bytes_view_member => ptr_size + ptr_size

/-- Alignment requirement of each member of `union evmjit_variant`,
parameterized by the platform pointer alignment: the integer members align
to 8, the char-array struct to 1, the bytes view to the pointer alignment. -/
def member_align (ptr_align : Nat) : variant_member → Nat
  | .int64_member => 8
  | .uint256_member => 8
  | .padded_address_member => 1
  | .bytes_view_member => ptr_align

/-- The members of `union evmjit_variant` in declaration order. -/
def variant_members : List variant_member :=
  [.int64_member, .uint256_member, .padded_address_member, .bytes_view_member]

/-- Size of `union evmjit_variant` under the C layout rules: the largest
member size rounded up to the strictest member alignment. -/
def sizeof_variant (ptr_size ptr_align : Nat) : Nat :=
  round_up_to ((variant_members.map (member_size ptr_size)).foldr max 0)
    ((variant_members.map (member_align ptr_align)).foldr max 1)

/-! ### Execution result and modelled engine operations -/

/-- Model of `struct evmjit_result` (include/evmjit.h lines 71-93): a normal
stop carries the output data and the remaining gas, a self-destruct carries
the beneficiary address, an exception carries nothing. -/
inductive evmjit_result where
  | normal (output_data : List Nat) (gas_left : Int)
  | selfdestruct (beneficiary : List Nat)
  | exception
deriving DecidableEq

/-- Modelled from the spec: `evmjit_execute` is only declared in the
repository (include/evmjit.h lines 271-290); the bytecode interpreter is out
of scope of the C API layer.  The engine is abstracted by the amount of gas
the executed code consumes (`gas_used`) and the output it produces: when the
consumed gas fits in the budget the execution stops normally with the
remaining gas, otherwise gas exhaustion is an exception. -/
def evmjit_execute (gas : Int) (gas_used : Nat) (output : List Nat) :
    evmjit_result :=
  if (gas_used : Int) ≤ gas then .normal output (gas - gas_used)
  else .exception

/-- Outcome of a nested call as the engine understands the call callback's
return value. -/
inductive call_outcome where
  | gas_remaining (g : Int)
  | call_failed
deriving DecidableEq

/-- Modelled from the spec: the engine's interpretation of the signed 64-bit
return value of `evmjit_call_func` (include/evmjit.h lines 203-209) — a
non-negative value is the gas remaining after the nested call, a negative
value means the nested call raised an exception. -/
def interpret_call_result (ret : Int) : call_outcome :=
  if 0 ≤ ret then .gas_remaining ret else .call_failed

/-- The engine's view of a completed nested call: whether it succeeded, the
gas accounted to it, and the output it read back (none when the buffer
contents are undefined). -/
structure subcall_view where
  success : Bool
  gas_after : Int
  output_read : Option (List Nat)
deriving DecidableEq

/-- Modelled from the spec: how the executing engine consumes the result of a
nested call, uniformly in the call kind.  On a non-negative return the
sub-call succeeded and the output buffer holds valid data; on a negative
return the sub-call is treated as failed and the output buffer is not read
(its contents are undefined). -/
def engine_handle_subcall (kind : evmjit_call_kind) (ret : Int)
    (output : List Nat) : subcall_view :=
  match kind, interpret_call_result ret with
  | _, .gas_remaining g => ⟨true, g, some output⟩
  | _, .call_failed => ⟨false, 0, none⟩

/-- Modelled from the spec: the size of the mutable output buffer the engine
hands to the call callback.  For an ordinary call it is the caller's
requested output size; for create the engine guarantees at least 160 bytes
so the host can write back the created contract's address
(include/evmjit.h lines 196-202). -/
def call_output_buffer_size (kind : evmjit_call_kind) (requested : Nat) :
    Nat :=
  match kind with
  | .evmjit_create => max requested 160
  | _ => requested

/-! ### Instance lifecycle and configuration -/

/-- Model of `evmjit_query_func` (include/evmjit.h lines 169-171). -/
abbrev evmjit_query_func : Type :=
  evmjit_env → evmjit_query_key → VariantMem → VariantMem

/-- Model of `evmjit_store_storage_func` (include/evmjit.h lines 174-180):
takes the environment, a 256-bit key and a 256-bit value, returns nothing. -/
abbrev evmjit_store_storage_func : Type :=
  evmjit_env → List Nat → List Nat → Unit

/-- Model of `evmjit_call_func` (include/evmjit.h lines 203-209): call kind,
gas, address, value, input data, output buffer, returning the signed gas
result. -/
abbrev evmjit_call_func : Type :=
  evmjit_call_kind → Int → List Nat → List Nat → List Nat → List Nat → Int

/-- Model of `evmjit_log_func` (include/evmjit.h lines 211-218): log data and
topics, returning nothing. -/
abbrev evmjit_log_func : Type :=
  List Nat → List (List Nat) → Unit

/-- Model of `struct evmjit_instance`: the four callback bindings fixed at
creation plus the option state mutated by `evmjit_set_option`. -/
structure evmjit_instance where
  query_fn : evmjit_query_func
  storage_fn : evmjit_store_storage_func
  call_fn : evmjit_call_func
  log_fn : evmjit_log_func
  options : List (String × String)

/-- Modelled from the spec: `evmjit_create_instance` is only declared in the
repository (include/evmjit.h lines 229-246).  It takes the callback
quadruple query, storage-write, call, log — each documented "Nonnull",
modelled as `Option` with `none` for a null pointer — and signals failure by
returning a null handle (`none`); it succeeds exactly when all four
callbacks are non-null. -/
def evmjit_create_instance (q : Option evmjit_query_func)
    (s : Option evmjit_store_storage_func) (c : Option evmjit_call_func)
    (l : Option evmjit_log_func) : Option evmjit_instance :=
  match q, s, c, l with
  | some qf, some sf, some cf, some lf => some ⟨qf, sf, cf, lf, []⟩
  | _, _, _, _ => none

/-- Modelled from the spec: the option names `evmjit_set_option` recognizes;
the header documents the option families as compatibility mode and code
cache behavior (include/evmjit.h lines 254-262). -/
def recognized_option_names : List String :=
  ["compatibility-mode", "code-cache"]

/-- Modelled from the spec: `evmjit_set_option` is only declared in the
repository (include/evmjit.h lines 254-268).  It takes the instance and an
option name and value as strings and returns true when the option was set;
an unrecognized name fails (returns false) and leaves the instance
unchanged. -/
def evmjit_set_option (jit : evmjit_instance) (name value : String) :
    Bool × evmjit_instance :=
  if name ∈ recognized_option_names then
    (true, ⟨jit.query_fn, jit.storage_fn, jit.call_fn, jit.log_fn,
      (name, value) :: jit.options⟩)
  else
    (false, jit)

/-- A concrete instance with trivial callbacks, used to instantiate
theorems. -/
def sample_instance : evmjit_instance :=
  ⟨fun _ _ _ => ⟨[0, 0, 0, 0]⟩, fun _ _ _ => (), fun _ _ _ _ _ _ => 0,
    fun _ _ => (), []⟩

/-! ### Shared codec lemmas -/

theorem natToLeBytes_leBytesToNat (bs : List Nat) (h : ∀ b ∈ bs, b < 256) :
    natToLeBytes bs.length (leBytesToNat bs) = bs := by
  induction bs with
  | nil => rfl
  | cons b bs ih =>
      have hb : b < 256 := h b (List.mem_cons_self b bs)
      have h1 : (b + 256 * leBytesToNat bs) % 256 = b := by omega
      have h2 : (b + 256 * leBytesToNat bs) / 256 = leBytesToNat bs := by omega
      simp only [List.length_cons, natToLeBytes, leBytesToNat, h1, h2]
      exact congrArg (b :: ·) (ih fun x hx => h x (List.mem_cons_of_mem b hx))

theorem natToBeBytes_beBytesToNat (bs : List Nat) (h : ∀ b ∈ bs, b < 256) :
    natToBeBytes bs.length (beBytesToNat bs) = bs := by
  have hrev : ∀ b ∈ bs.reverse, b < 256 := fun b hb =>
    h b (List.mem_reverse.mp hb)
  have := natToLeBytes_leBytesToNat bs.reverse hrev
  unfold natToBeBytes beBytesToNat
  rw [← List.length_reverse bs, this, List.reverse_reverse]

theorem natToLeBytes_beBytesToNat (bs : List Nat) (h : ∀ b ∈ bs, b < 256) :
    natToLeBytes bs.length (beBytesToNat bs) = bs.reverse := by
  have hrev : ∀ b ∈ bs.reverse, b < 256 := fun b hb =>
    h b (List.mem_reverse.mp hb)
  have := natToLeBytes_leBytesToNat bs.reverse hrev
  unfold beBytesToNat
  rw [← List.length_reverse bs, this]

theorem chunk_assembly (B : List Nat) :
    B.take 8 ++ ((B.drop 8).take 8 ++ ((B.drop 16).take 8 ++ B.drop 24)) = B := by
  have h1 : (B.drop 8).drop 8 = B.drop 16 := by
    rw [List.drop_drop]
  have h2 : (B.drop 16).drop 8 = B.drop 24 := by
    rw [List.drop_drop]
  calc B.take 8 ++ ((B.drop 8).take 8 ++ ((B.drop 16).take 8 ++ B.drop 24))
      = B.take 8 ++
          ((B.drop 8).take 8 ++ ((B.drop 16).take 8 ++ (B.drop 16).drop 8)) := by
        rw [h2]
    _ = B.take 8 ++ ((B.drop 8).take 8 ++ B.drop 16) := by
        rw [List.take_append_drop]
    _ = B.take 8 ++ ((B.drop 8).take 8 ++ (B.drop 8).drop 8) := by rw [h1]
    _ = B.take 8 ++ B.drop 8 := by rw [List.take_append_drop]
    _ = B := List.take_append_drop 8 B

/-- C2: converting a 32-byte big-endian `evmjit_hash256` buffer to the
host-endian four-word `evmjit_uint256` form (`words[0]` holding the 64 least
significant bits) and back yields the buffer unchanged, and the little-endian
host memory image of the word form is the exact reversal of the buffer
(reversal of word order and of intra-word byte order). -/
theorem hash256_uint256_roundtrip (B : List Nat) (hlen : B.length = 32)
    (hlt : ∀ b ∈ B, b < 256) :
    uint256_to_hash256 (hash256_to_uint256 B) = B ∧
    uint256_le_image (hash256_to_uint256 B) = B.reverse := by
  have hb0 : ∀ b ∈ B.take 8, b < 256 := fun b hb =>
    hlt b (List.take_subset 8 B hb)
  have hb1 : ∀ b ∈ (B.drop 8).take 8, b < 256 := fun b hb =>
    hlt b (List.drop_subset 8 B (List.take_subset 8 (B.drop 8) hb))
  have hb2 : ∀ b ∈ (B.drop 16).take 8, b < 256 := fun b hb =>
    hlt b (List.drop_subset 16 B (List.take_subset 8 (B.drop 16) hb))
  have hb3 : ∀ b ∈ B.drop 24, b < 256 := fun b hb =>
    hlt b (List.drop_subset 24 B hb)
  have hl0 : (B.take 8).length = 8 := by
    rw [List.length_take, hlen]; decide
  have hl1 : ((B.drop 8).take 8).length = 8 := by
    rw [List.length_take, List.length_drop, hlen]; decide
  have hl2 : ((B.drop 16).take 8).length = 8 := by
    rw [List.length_take, List.length_drop, hlen]; decide
  have hl3 : (B.drop 24).length = 8 := by
    rw [List.length_drop, hlen]
  have e0 : natToBeBytes 8 (beBytesToNat (B.take 8)) = B.take 8 := by
    have := natToBeBytes_beBytesToNat (B.take 8) hb0
    rwa [hl0] at this
  have e1 : natToBeBytes 8 (beBytesToNat ((B.drop 8).take 8)) =
      (B.drop 8).take 8 := by
    have := natToBeBytes_beBytesToNat ((B.drop 8).take 8) hb1
    rwa [hl1] at this
  have e2 : natToBeBytes 8 (beBytesToNat ((B.drop 16).take 8)) =
      (B.drop 16).take 8 := by
    have := natToBeBytes_beBytesToNat ((B.drop 16).take 8) hb2
    rwa [hl2] at this
  have e3 : natToBeBytes 8 (beBytesToNat (B.drop 24)) = B.drop 24 := by
    have := natToBeBytes_beBytesToNat (B.drop 24) hb3
    rwa [hl3] at this
  have f0 : natToLeBytes 8 (beBytesToNat (B.take 8)) = (B.take 8).reverse := by
    have := natToLeBytes_beBytesToNat (B.take 8) hb0
    rwa [hl0] at this
  have f1 : natToLeBytes 8 (beBytesToNat ((B.drop 8).take 8)) =
      ((B.drop 8).take 8).reverse := by
    have := natToLeBytes_beBytesToNat ((B.drop 8).take 8) hb1
    rwa [hl1] at this
  have f2 : natToLeBytes 8 (beBytesToNat ((B.drop 16).take 8)) =
      ((B.drop 16).take 8).reverse := by
    have := natToLeBytes_beBytesToNat ((B.drop 16).take 8) hb2
    rwa [hl2] at this
  have f3 : natToLeBytes 8 (beBytesToNat (B.drop 24)) =
      (B.drop 24).reverse := by
    have := natToLeBytes_beBytesToNat (B.drop 24) hb3
    rwa [hl3] at this
  constructor
  · show natToBeBytes 8 (beBytesToNat (B.take 8)) ++
        (natToBeBytes 8 (beBytesToNat ((B.drop 8).take 8)) ++
          (natToBeBytes 8 (beBytesToNat ((B.drop 16).take 8)) ++
            natToBeBytes 8 (beBytesToNat (B.drop 24)))) = B
    rw [e0, e1, e2, e3, chunk_assembly]
  · show natToLeBytes 8 (beBytesToNat (B.drop 24)) ++
        (natToLeBytes 8 (beBytesToNat ((B.drop 16).take 8)) ++
          (natToLeBytes 8 (beBytesToNat ((B.drop 8).take 8)) ++
            natToLeBytes 8 (beBytesToNat (B.take 8)))) = B.reverse
    rw [f0, f1, f2, f3]
    conv_rhs => rw [← chunk_assembly B]
    simp [List.reverse_append, List.append_assoc]

/-- C2 witness: the round trip evaluated on the concrete 32-byte buffer
`0, 1, ..., 31`. -/
theorem hash256_uint256_roundtrip_witness :
    (List.range 32).length = 32 ∧ (∀ b ∈ List.range 32, b < 256) ∧
    (uint256_to_hash256 (hash256_to_uint256 (List.range 32)) = List.range 32 ∧
      uint256_le_image (hash256_to_uint256 (List.range 32)) =
        (List.range 32).reverse) :=
  ⟨by decide, by decide,
    hash256_uint256_roundtrip (List.range 32) (by decide) (by decide)⟩

/-! ### Claim theorems (beyond C2 above) -/

/-- C3: in the query channel of include/evmjit.h, the nine environment keys
address, caller, origin, gas-price, coinbase, difficulty, gas-limit, number
and timestamp ignore the variant argument; the result member is fixed per
key — the address member for address, caller, origin and coinbase, the
256-bit integer for gas-price and difficulty, the 64-bit integer for
gas-limit, number and timestamp; the keyed queries code-by-address, balance
and storage take an address, an address and a 256-bit key and return a byte
view, a 256-bit integer and a 256-bit integer respectively; and these twelve
keys are the only query keys. -/
theorem query_key_table :
    (query_arg .query_address = .no_arg ∧ query_arg .query_caller = .no_arg ∧
      query_arg .query_origin = .no_arg ∧
      query_arg .query_gas_price = .no_arg ∧
      query_arg .query_coinbase = .no_arg ∧
      query_arg .query_difficulty = .no_arg ∧
      query_arg .query_gas_limit = .no_arg ∧
      query_arg .query_number = .no_arg ∧
      query_arg .query_timestamp = .no_arg) ∧
    (query_result .query_address = .address_kind ∧
      query_result .query_caller = .address_kind ∧
      query_result .query_origin = .address_kind ∧
      query_result .query_coinbase = .address_kind ∧
      query_result .query_gas_price = .uint256_kind ∧
      query_result .query_difficulty = .uint256_kind ∧
      query_result .query_gas_limit = .int64_kind ∧
      query_result .query_number = .int64_kind ∧
      query_result .query_timestamp = .int64_kind) ∧
    (query_arg .query_code_by_address = .address_arg ∧
      query_result .query_code_by_address = .bytes_kind) ∧
    (query_arg .query_balance = .address_arg ∧
      query_result .query_balance = .uint256_kind) ∧
    (query_arg .query_storage = .uint256_arg ∧
      query_result .query_storage = .uint256_kind) ∧
    (∀ k : evmjit_query_key, k ∈ all_query_keys) := by
  decide

/-- C10: the return-code enumeration is encoded as 0 for the normal stop, 1
for self-destruct and -1 for the exception, so the return code is negative
exactly when execution ended with an exception. -/
theorem return_code_encoding :
    return_code_value .evmjit_return = 0 ∧
    return_code_value .evmjit_selfdestruct = 1 ∧
    return_code_value .evmjit_exception = -1 ∧
    ∀ rc : evmjit_return_code,
      return_code_value rc < 0 ↔ rc = .evmjit_exception := by
  decide

/-- C1: for a gas budget supplied to `evmjit_execute` within [0, 2^63 - 1],
every result whose return code is the normal stop carries a `gas_left` that
is non-negative and at most the supplied gas. -/
theorem execute_normal_gas_bounds (gas : Int) (gas_used : Nat)
    (output out : List Nat) (gl : Int) (_hlo : 0 ≤ gas)
    (_hhi : gas ≤ 2 ^ 63 - 1)
    (hres : evmjit_execute gas gas_used output = .normal out gl) :
    0 ≤ gl ∧ gl ≤ gas := by
  unfold evmjit_execute at hres
  split at hres
  · injection hres with ho hg
    omega
  · simp at hres

/-- C1 witness: a concrete execution with gas 200000 consuming 3 gas. -/
theorem execute_normal_gas_bounds_witness :
    (0 : Int) ≤ 200000 ∧ (200000 : Int) ≤ 2 ^ 63 - 1 ∧
    evmjit_execute 200000 3 [] = .normal [] 199997 ∧
    (0 ≤ (199997 : Int) ∧ (199997 : Int) ≤ 200000) :=
  ⟨by decide, by decide, by decide,
    execute_normal_gas_bounds 200000 3 [] [] 199997 (by decide) (by decide)
      (by decide)⟩

/-- C4: the call callback's signed 64-bit return value is interpreted as the
gas remaining after the nested call when non-negative, and as a raised
exception when negative, in which case — uniformly in the call kind — the
engine treats the sub-call as failed and does not read the output buffer. -/
theorem call_result_interpretation (kind : evmjit_call_kind) (ret : Int)
    (output : List Nat) :
    (0 ≤ ret → interpret_call_result ret = .gas_remaining ret ∧
      engine_handle_subcall kind ret output = ⟨true, ret, some output⟩) ∧
    (ret < 0 → interpret_call_result ret = .call_failed ∧
      engine_handle_subcall kind ret output = ⟨false, 0, none⟩) := by
  refine ⟨fun h => ?_, fun h => ?_⟩
  · constructor
    · simp [interpret_call_result, h]
    · cases kind <;> simp [engine_handle_subcall, interpret_call_result, h]
  · constructor
    · simp [interpret_call_result, not_le.mpr h]
    · cases kind <;>
        simp [engine_handle_subcall, interpret_call_result, not_le.mpr h]

/-- C4 witness: a create call returning gas -1 is treated as a failed
sub-call whose output buffer is not read. -/
theorem call_result_interpretation_witness :
    ((-1 : Int) < 0) ∧
    interpret_call_result (-1) = .call_failed ∧
    engine_handle_subcall .evmjit_create (-1) [] = ⟨false, 0, none⟩ :=
  ⟨by decide,
    ((call_result_interpretation .evmjit_create (-1) []).2 (by decide)).1,
    ((call_result_interpretation .evmjit_create (-1) []).2 (by decide)).2⟩

/-- C5: for a call of kind create the mutable output buffer supplied by the
engine is at least 160 bytes — enough to hold the 20-byte `evmjit_hash160`
contract address — and after a failed create (negative return) the engine's
view of the sub-call does not depend on the buffer contents, so the host is
not required to zero it. -/
theorem create_output_buffer (requested : Nat) (out out' : List Nat)
    (ret : Int) (hret : ret < 0) :
    160 ≤ call_output_buffer_size .evmjit_create requested ∧
    sizeof_hash160 ≤ call_output_buffer_size .evmjit_create requested ∧
    engine_handle_subcall .evmjit_create ret out =
      engine_handle_subcall .evmjit_create ret out' := by
  refine ⟨?_, ?_, ?_⟩
  · simp only [call_output_buffer_size]
    omega
  · simp only [call_output_buffer_size, sizeof_hash160]
    omega
  · simp [engine_handle_subcall, interpret_call_result, not_le.mpr hret]

/-- C5 witness: a create call with requested output size 0 and return -1. -/
theorem create_output_buffer_witness :
    ((-1 : Int) < 0) ∧
    (160 ≤ call_output_buffer_size .evmjit_create 0 ∧
      sizeof_hash160 ≤ call_output_buffer_size .evmjit_create 0 ∧
      engine_handle_subcall .evmjit_create (-1) [1] =
        engine_handle_subcall .evmjit_create (-1) []) :=
  ⟨by decide, create_output_buffer 0 [1] [] (-1) (by decide)⟩

/-- C6: `evmjit_set_option` takes the instance, an option name string and a
value string and returns a boolean; for every unrecognized option name it
returns false and leaves the instance unchanged. -/
theorem set_option_unrecognized (jit : evmjit_instance) (name value : String)
    (h : name ∉ recognized_option_names) :
    evmjit_set_option jit name value = (false, jit) := by
  simp [evmjit_set_option, h]

/-- C6 witness: setting the unrecognized option name "jit-level" on a
concrete instance fails and changes nothing. -/
theorem set_option_unrecognized_witness :
    ("jit-level" ∉ recognized_option_names) ∧
    evmjit_set_option sample_instance "jit-level" "3" =
      (false, sample_instance) :=
  ⟨by decide,
    set_option_unrecognized sample_instance "jit-level" "3" (by decide)⟩

/-- C7: `evmjit_create_instance` takes exactly the callback quadruple query,
storage-write, call, log; it returns a non-null instance handle exactly when
all four callbacks are non-null, and signals failure by returning the null
handle. -/
theorem create_instance_requires_callbacks (q : Option evmjit_query_func)
    (s : Option evmjit_store_storage_func) (c : Option evmjit_call_func)
    (l : Option evmjit_log_func) :
    (evmjit_create_instance q s c l).isSome = true ↔
      (q.isSome = true ∧ s.isSome = true ∧ c.isSome = true ∧
        l.isSome = true) := by
  cases q <;> cases s <;> cases c <;> cases l <;>
    simp [evmjit_create_instance]

/-- C7 witness: creation with a null query callback (and the other three
non-null) returns the null handle. -/
theorem create_instance_requires_callbacks_witness :
    evmjit_create_instance (none : Option evmjit_query_func)
        (some fun _ _ _ => ()) (some fun _ _ _ _ _ _ => 0)
        (some fun _ _ => ()) = none := by
  have h := create_instance_requires_callbacks
    (none : Option evmjit_query_func) (some fun _ _ _ => ())
    (some fun _ _ _ _ _ _ => 0) (some fun _ _ => ())
  cases hc : evmjit_create_instance (none : Option evmjit_query_func)
      (some fun _ _ _ => ()) (some fun _ _ _ _ _ _ => 0)
      (some fun _ _ => ()) with
  | none => rfl
  | some inst =>
      have hs := (h.mp (by rw [hc]; rfl)).1
      simp at hs

/-- C8 counterexample: under the C layout rules on an LP64 platform (8-byte
pointers with 8-byte alignment), `union evmjit_variant` occupies 32 bytes,
not the 64 bytes its comment states: no member is larger than 32 bytes. -/
theorem variant_size_not_64 : sizeof_variant 8 8 ≠ 64 := by
  decide

/-- C8 amended: `union evmjit_variant` holds exactly one of the four members
int64, uint256, padded address and bytes view; on an LP64 platform its size
is 32 bytes, which fits within one 64-byte cache line; and the address
member is preceded by exactly 12 bytes of padding, so padding plus the
20-byte address together fill one full 32-byte 256-bit slot. -/
theorem variant_layout :
    (∀ m : variant_member, m ∈ variant_members) ∧
    sizeof_variant 8 8 = 32 ∧ sizeof_variant 8 8 ≤ 64 ∧
    address_padding_size = 12 ∧
    member_size 8 .padded_address_member =
      address_padding_size + sizeof_hash160 ∧
    address_padding_size + sizeof_hash160 = member_size 8 .uint256_member := by
  decide

/-- C9: evaluation of the example host's query callback (src/examples/capi.c)
on a storage-load query.  The example host has no storage, so every key is
unset; its default branch writes only a 64-bit zero into the uninitialized
result variant, so when the indeterminate initial contents are the words
(7, 1, 2, 3) the 256-bit value read back is (0, 1, 2, 3) — not the 256-bit
zero value the query table of include/evmjit.h requires for the storage
key. -/
theorem storage_load_unset_not_zero :
    read_uint256 (example_query (fun _ _ => [0, 0, 0, 0]) ⟨[7, 1, 2, 3]⟩
        .host_env .query_storage ⟨[0, 0, 0, 0]⟩) = [0, 1, 2, 3] ∧
    [0, 1, 2, 3] ≠ [0, 0, 0, 0] := by
  decide
